import Mathlib

/-
Shallow embedding of the error-reporting module `src/cli/src/util/errors.rs`
of the VS Code CLI, together with theorems about its rendering and
conversion behaviour.

Modelling conventions:
- Rust `Display` and `Debug` are modelled as typeclasses producing a
  `String`; `format!` calls become explicit string concatenation in the
  order of the format string.
- Foreign collaborator types (`reqwest::Error`, `reqwest::Response`,
  `std::io::Error`, `rmp_serde::decode::Error`, `rpc::ResponseError`) are
  modelled by the interface the module uses: an optional URL, a rendering
  string, a debug string, a status code, a body-drain result.
- Ambient state read by renderings (the compile-time constants
  `DOCUMENTATION_URL`, `APPLICATION_NAME`, `QUALITYLESS_PRODUCT_NAME`,
  `CONTROL_PORT`, and the process state `std::env::current_exe`,
  `std::env::args`, `std::env::var("WSL_DISTRO_NAME")`) is passed to the
  rendering functions as explicit parameters.
- The fallible async constructor `StatusError::from_res` becomes a
  function into `Except AnyError StatusError`.
-/

/-- Rust's `std::fmt::Display`: a user-facing textual rendering. -/
class RustDisplay (α : Type) where
  fmt : α → String

/-- Rust's `std::fmt::Debug`: a structural textual rendering. -/
class RustDebug (α : Type) where
  fmt : α → String

/-- Model of the foreign `reqwest::Error`: the module only uses its
optional URL (`e.url()`) and its own `Display` rendering. -/
structure ReqwestError where
  url : Option String
  rendering : String

instance : RustDisplay ReqwestError :=
  ⟨ReqwestError.rendering⟩

/-- Model of the foreign `std::io::Error` by the debug text the
module interpolates with the debug format. -/
structure IoError where
  dbg : String

/-- Model of the foreign `rmp_serde::decode::Error` by its debug text. -/
structure RmpDecodeError where
  dbg : String

/-- Model of the foreign `rpc::ResponseError` by its debug text. -/
structure ResponseError where
  dbg : String

/-- `struct WrappedError { message: String, original: String }`. -/
structure WrappedError where
  message : String
  original : String

/-- `Display for WrappedError`: `write!(f, "{}: {}", self.message, self.original)`. -/
def WrappedError.fmt (e : WrappedError) : String :=
  e.message ++ ": " ++ e.original

instance : RustDisplay WrappedError :=
  ⟨WrappedError.fmt⟩

/-- `impl From<reqwest::Error> for WrappedError`. -/
def WrappedError.from_reqwest (e : ReqwestError) : WrappedError :=
  { message := "error requesting " ++ e.url.getD "<unknown>"
    original := e.rendering }

/-- `pub fn wrapdbg<T: Debug, S: Into<String>>(original, message) -> WrappedError`. -/
def wrapdbg {α : Type} [RustDebug α] (original : α) (message : String) : WrappedError :=
  { message := message
    original := RustDebug.fmt original }

/-- `pub fn wrap<T: Display, S: Into<String>>(original, message) -> WrappedError`. -/
def wrap {α : Type} [RustDisplay α] (original : α) (message : String) : WrappedError :=
  { message := message
    original := RustDisplay.fmt original }

/-- `struct StatusError { url, status_code: u16, body }`. -/
structure StatusError where
  url : String
  status_code : Nat
  body : String

/-- `Display for StatusError`: `"error requesting {}: {} {}"`. -/
def StatusError.fmt (e : StatusError) : String :=
  "error requesting " ++ e.url ++ ": " ++ toString e.status_code ++ " " ++ e.body

/-- Model of the foreign `reqwest::Response` interface used by `from_res`:
status code, URL, and the result of draining the body as text. -/
structure Response where
  status : Nat
  url : String
  text : Except ReqwestError String

/-- `struct MissingLegalConsent(pub String)`. -/
structure MissingLegalConsent where
  msg : String

/-- `Display for MissingLegalConsent`: `"{}"`. -/
def MissingLegalConsent.fmt (e : MissingLegalConsent) : String :=
  e.msg

/-- `struct MismatchConnectionToken(pub String)`. -/
structure MismatchConnectionToken where
  msg : String

/-- `Display for MismatchConnectionToken`: `"{}"`. -/
def MismatchConnectionToken.fmt (e : MismatchConnectionToken) : String :=
  e.msg

/-- `struct InvalidServerExtensionError(pub String)`. -/
structure InvalidServerExtensionError where
  msg : String

/-- `Display for InvalidServerExtensionError`. -/
def InvalidServerExtensionError.fmt (e : InvalidServerExtensionError) : String :=
  "invalid server extension '" ++ e.msg ++ "'"

/-- `struct DevTunnelError(pub String)`. -/
structure DevTunnelError where
  msg : String

/-- `Display for DevTunnelError`. -/
def DevTunnelError.fmt (e : DevTunnelError) : String :=
  "could not open tunnel: " ++ e.msg

/-- `struct MissingEntrypointError()`. -/
structure MissingEntrypointError where

/-- `Display for MissingEntrypointError`. -/
def MissingEntrypointError.fmt (_ : MissingEntrypointError) : String :=
  "Missing entrypoints in server download. Most likely this is a corrupted download. Please retry"

/-- `struct SetupError(pub String)`. -/
structure SetupError where
  msg : String

/-- `Display for SetupError`: `"{}\n\nMore info at {}/remote/linux"` with
arguments `DOCUMENTATION_URL.unwrap_or("<docs>")` and `self.0`; the
constant `DOCUMENTATION_URL : Option<&str>` is passed explicitly. -/
def SetupError.fmt (documentation_url : Option String) (e : SetupError) : String :=
  documentation_url.getD "<docs>" ++ "\n\nMore info at " ++ e.msg ++ "/remote/linux"

/-- `struct NoHomeForLauncherError()`. -/
structure NoHomeForLauncherError where

/-- `Display for NoHomeForLauncherError`. -/
def NoHomeForLauncherError.fmt (_ : NoHomeForLauncherError) : String :=
  "No $HOME variable was found in your environment. Either set it, or specify a `--data-dir` manually when invoking the launcher."

/-- `struct InvalidTunnelName(pub String)`. -/
structure InvalidTunnelName where
  msg : String

/-- `Display for InvalidTunnelName`: `"{}"`. -/
def InvalidTunnelName.fmt (e : InvalidTunnelName) : String :=
  e.msg

/-- `struct TunnelCreationFailed(pub String, pub String)`. -/
structure TunnelCreationFailed where
  name : String
  reason : String

/-- `Display for TunnelCreationFailed`. -/
def TunnelCreationFailed.fmt (e : TunnelCreationFailed) : String :=
  "Could not create tunnel with name: " ++ e.name ++ "\nReason: " ++ e.reason

/-- `struct TunnelHostFailed(pub String)`. -/
structure TunnelHostFailed where
  msg : String

/-- `Display for TunnelHostFailed`: `"{}"`. -/
def TunnelHostFailed.fmt (e : TunnelHostFailed) : String :=
  e.msg

/-- `struct ExtensionInstallFailed(pub String)`. -/
structure ExtensionInstallFailed where
  msg : String

/-- `Display for ExtensionInstallFailed`. -/
def ExtensionInstallFailed.fmt (e : ExtensionInstallFailed) : String :=
  "Extension install failed: " ++ e.msg

/-- `struct MismatchedLaunchModeError()`. -/
structure MismatchedLaunchModeError where

/-- `Display for MismatchedLaunchModeError`. -/
def MismatchedLaunchModeError.fmt (_ : MismatchedLaunchModeError) : String :=
  "A server is already running, but it was not launched in the same listening mode (port vs. socket) as this request"

/-- `struct NoAttachedServerError()`. -/
structure NoAttachedServerError where

/-- `Display for NoAttachedServerError`. -/
def NoAttachedServerError.fmt (_ : NoAttachedServerError) : String :=
  "No server is running"

/-- `struct RefreshTokenNotAvailableError()`. -/
structure RefreshTokenNotAvailableError where

/-- `Display for RefreshTokenNotAvailableError`. -/
def RefreshTokenNotAvailableError.fmt (_ : RefreshTokenNotAvailableError) : String :=
  "Refresh token not available, authentication is required"

/-- `struct NoInstallInUserProvidedPath(pub String)`. -/
structure NoInstallInUserProvidedPath where
  path : String

/-- `Display for NoInstallInUserProvidedPath`; the constants
`QUALITYLESS_PRODUCT_NAME` and `APPLICATION_NAME` are passed explicitly. -/
def NoInstallInUserProvidedPath.fmt (qualityless_product_name application_name : String)
    (e : NoInstallInUserProvidedPath) : String :=
  "No " ++ qualityless_product_name ++ " installation could be found in " ++ e.path
    ++ ". You can run `" ++ application_name
    ++ " --use-quality=stable` to switch to the latest stable version of "
    ++ qualityless_product_name ++ "."

/-- `struct InvalidRequestedVersion()`. -/
structure InvalidRequestedVersion where

/-- `Display for InvalidRequestedVersion`. -/
def InvalidRequestedVersion.fmt (_ : InvalidRequestedVersion) : String :=
  "The reqested version is invalid, expected one of 'stable', 'insiders', version number (x.y.z), or absolute path."

/-- `struct UserCancelledInstallation()`. -/
structure UserCancelledInstallation where

/-- `Display for UserCancelledInstallation`. -/
def UserCancelledInstallation.fmt (_ : UserCancelledInstallation) : String :=
  "Installation aborted."

/-- `struct CannotForwardControlPort()`. -/
structure CannotForwardControlPort where

/-- `Display for CannotForwardControlPort`; `CONTROL_PORT` passed explicitly. -/
def CannotForwardControlPort.fmt (control_port : Nat) (_ : CannotForwardControlPort) : String :=
  "Cannot forward or unforward port " ++ toString control_port ++ "."

/-- `struct ServerHasClosed()`. -/
structure ServerHasClosed where

/-- `Display for ServerHasClosed`. -/
def ServerHasClosed.fmt (_ : ServerHasClosed) : String :=
  "Request cancelled because the server has closed"

/-- `struct UpdatesNotConfigured(pub String)`. -/
structure UpdatesNotConfigured where
  msg : String

/-- `UpdatesNotConfigured::no_url()`. -/
def UpdatesNotConfigured.no_url : UpdatesNotConfigured :=
  { msg := "no service url" }

/-- `Display for UpdatesNotConfigured`. -/
def UpdatesNotConfigured.fmt (e : UpdatesNotConfigured) : String :=
  "Update service is not configured: " ++ e.msg

/-- `struct ServiceAlreadyRegistered()`. -/
structure ServiceAlreadyRegistered where

/-- `Display for ServiceAlreadyRegistered`; `APPLICATION_NAME` passed explicitly. -/
def ServiceAlreadyRegistered.fmt (application_name : String) (_ : ServiceAlreadyRegistered) : String :=
  "Already registered the service. Run `" ++ application_name
    ++ " tunnel service uninstall` to unregister it first"

/-- `struct WindowsNeedsElevation(pub String)`. -/
structure WindowsNeedsElevation where
  msg : String

/-- `Display for WindowsNeedsElevation`: a sequence of `writeln!` calls,
then a branch on `std::env::current_exe()`; on success it prints the
executable and the `skip(1)` arguments joined with `"' '"`, on failure a
fallback line. Process state is passed explicitly. -/
def WindowsNeedsElevation.fmt (current_exe : Option String) (args : List String)
    (e : WindowsNeedsElevation) : String :=
  e.msg ++ "\n"
    ++ "\n"
    ++ "You may need to run this command as an administrator:" ++ "\n"
    ++ " 1. Open the start menu and search for Powershell" ++ "\n"
    ++ " 2. Right click and 'Run as administrator'" ++ "\n"
    ++ (match current_exe with
        | some exe =>
          " 3. Run &'" ++ exe ++ "' '" ++ String.intercalate "' '" (args.drop 1) ++ "'" ++ "\n"
        | none => " 3. Run the same command again" ++ "\n")

/-- `struct InvalidRpcDataError(pub String)`. -/
structure InvalidRpcDataError where
  msg : String

/-- `Display for InvalidRpcDataError`. -/
def InvalidRpcDataError.fmt (e : InvalidRpcDataError) : String :=
  "parse error: " ++ e.msg

/-- `struct CorruptDownload(pub String)`. -/
structure CorruptDownload where
  msg : String

/-- `Display for CorruptDownload`; `QUALITYLESS_PRODUCT_NAME` passed explicitly. -/
def CorruptDownload.fmt (qualityless_product_name : String) (e : CorruptDownload) : String :=
  "Error updating the " ++ qualityless_product_name ++ " CLI: " ++ e.msg

/-- `struct MissingHomeDirectory()`. -/
structure MissingHomeDirectory where

/-- `Display for MissingHomeDirectory`. -/
def MissingHomeDirectory.fmt (_ : MissingHomeDirectory) : String :=
  "Could not find your home directory. Please ensure this command is running in the context of an normal user."

/-- `struct OAuthError { error: String, error_description: Option<String> }`. -/
structure OAuthError where
  error : String
  error_description : Option String

/-- `Display for OAuthError`: `"Error getting authorization: {} {}"` with
`self.error` and `self.error_description.as_deref().unwrap_or("")`. -/
def OAuthError.fmt (e : OAuthError) : String :=
  "Error getting authorization: " ++ e.error ++ " " ++ e.error_description.getD ""

/-- The fixed first segment of the dbus failure message. -/
def dbusBaseMessage : String :=
  "Error creating dbus session. This command uses systemd for managing services, you should check that systemd is installed and under your user."

/-- The extra guidance appended when `WSL_DISTRO_NAME` is set. -/
def dbusWslGuidance : String :=
  "\n\nTo enable systemd on WSL, check out: https://devblogs.microsoft.com/commandline/systemd-support-is-now-available-in-wsl/.\n\n"

/-- The fixed trailing guidance of the dbus failure message, up to the
captured error text. -/
def dbusGuidanceTail : String :=
  "If running `systemctl status` works, systemd is ok, but your session dbus may not be. You might need to:\n\n- Install the `dbus-user-session` package, and reboot if it was not installed\n- Start the user dbus session with `systemctl --user enable dbus --now`.\n\nThe error encountered was: "

/-- `struct DbusConnectFailedError(pub String)`. -/
structure DbusConnectFailedError where
  msg : String

/-- `Display for DbusConnectFailedError`: builds the message with
`push_str`, inserting the WSL guidance exactly when
`std::env::var("WSL_DISTRO_NAME").is_ok()`; the variable is passed
explicitly. -/
def DbusConnectFailedError.fmt (wsl_distro_name : Option String)
    (e : DbusConnectFailedError) : String :=
  dbusBaseMessage
    ++ (if wsl_distro_name.isSome then dbusWslGuidance else "")
    ++ dbusGuidanceTail ++ e.msg ++ "\n"

/-- `enum CodeError`, the structured internal failure enum (derived with
`thiserror`); the two `#[cfg(windows)]` variants are included, modelling a
Windows build. -/
inductive CodeError where
  | AsyncPipeFailed : IoError → CodeError
  | AsyncPipeListenerFailed : IoError → CodeError
  | SingletonLockfileOpenFailed : IoError → CodeError
  | SingletonLockfileReadFailed : RmpDecodeError → CodeError
  | SingletonLockedProcessExited : Nat → CodeError
  | NoRunningTunnel : CodeError
  | TunnelRpcCallFailed : ResponseError → CodeError
  | AppAlreadyLocked : String → CodeError
  | AppLockFailed : IoError → CodeError
  | CommandFailed : String → Int → String → CodeError
  | UnsupportedPlatform : String → CodeError
  | PrerequisitesFailed : String → String → CodeError
  | ProcessSpawnFailed : IoError → CodeError
  | ProcessSpawnHandshakeFailed : IoError → CodeError
  | CorruptDownload : String → CodeError
  | PortForwardingNotAvailable : CodeError
  | ServerAuthRequired : CodeError
  | AuthChallengeNotIssued : CodeError
  | AuthChallengeBadToken : CodeError
  | AuthMismatch : CodeError
  | KeyringTimeout : CodeError

/-- The `Display` implementation `thiserror` derives for `CodeError` from
each variant's `#[error("...")]` attribute. -/
def CodeError.fmt : CodeError → String
  | .AsyncPipeFailed e => "could not connect to socket/pipe: " ++ e.dbg
  | .AsyncPipeListenerFailed e => "could not listen on socket/pipe: " ++ e.dbg
  | .SingletonLockfileOpenFailed e => "could not create singleton lock file: " ++ e.dbg
  | .SingletonLockfileReadFailed e => "could not read singleton lock file: " ++ e.dbg
  | .SingletonLockedProcessExited pid =>
    "the process holding the singleton lock file (pid=" ++ toString pid ++ ") exited"
  | .NoRunningTunnel => "no tunnel process is currently running"
  | .TunnelRpcCallFailed e => "rpc call failed: " ++ e.dbg
  | .AppAlreadyLocked s => "the windows app lock " ++ s ++ " already exists"
  | .AppLockFailed e => "could not get windows app lock: " ++ e.dbg
  | .CommandFailed command code output =>
    "failed to run command \"" ++ command ++ "\" (code " ++ toString code ++ "): " ++ output
  | .UnsupportedPlatform s => "platform not currently supported: " ++ s
  | .PrerequisitesFailed name bullets =>
    "This machine not meet " ++ name ++ "'s prerequisites, expected either...: " ++ bullets
  | .ProcessSpawnFailed e => "failed to spawn process: " ++ e.dbg
  | .ProcessSpawnHandshakeFailed e => "failed to handshake spawned process: " ++ e.dbg
  | .CorruptDownload s => "download appears corrupted, please retry (" ++ s ++ ")"
  | .PortForwardingNotAvailable => "port forwarding is not available in this context"
  | .ServerAuthRequired => "'auth' call required"
  | .AuthChallengeNotIssued => "challenge not yet issued"
  | .AuthChallengeBadToken => "challenge token is invalid"
  | .AuthMismatch => "unauthorized client refused"
  | .KeyringTimeout => "keyring communication timed out after 5s"

/-- The umbrella `enum AnyError` produced by the `makeAnyError!` macro
invocation at the bottom of the module: one variant per registered leaf
type, in the listed order. -/
inductive AnyError where
  | MissingLegalConsent : MissingLegalConsent → AnyError
  | MismatchConnectionToken : MismatchConnectionToken → AnyError
  | DevTunnelError : DevTunnelError → AnyError
  | StatusError : StatusError → AnyError
  | WrappedError : WrappedError → AnyError
  | InvalidServerExtensionError : InvalidServerExtensionError → AnyError
  | MissingEntrypointError : MissingEntrypointError → AnyError
  | SetupError : SetupError → AnyError
  | NoHomeForLauncherError : NoHomeForLauncherError → AnyError
  | TunnelCreationFailed : TunnelCreationFailed → AnyError
  | TunnelHostFailed : TunnelHostFailed → AnyError
  | InvalidTunnelName : InvalidTunnelName → AnyError
  | ExtensionInstallFailed : ExtensionInstallFailed → AnyError
  | MismatchedLaunchModeError : MismatchedLaunchModeError → AnyError
  | NoAttachedServerError : NoAttachedServerError → AnyError
  | RefreshTokenNotAvailableError : RefreshTokenNotAvailableError → AnyError
  | NoInstallInUserProvidedPath : NoInstallInUserProvidedPath → AnyError
  | UserCancelledInstallation : UserCancelledInstallation → AnyError
  | InvalidRequestedVersion : InvalidRequestedVersion → AnyError
  | CannotForwardControlPort : CannotForwardControlPort → AnyError
  | ServerHasClosed : ServerHasClosed → AnyError
  | ServiceAlreadyRegistered : ServiceAlreadyRegistered → AnyError
  | WindowsNeedsElevation : WindowsNeedsElevation → AnyError
  | UpdatesNotConfigured : UpdatesNotConfigured → AnyError
  | CorruptDownload : CorruptDownload → AnyError
  | MissingHomeDirectory : MissingHomeDirectory → AnyError
  | OAuthError : OAuthError → AnyError
  | InvalidRpcDataError : InvalidRpcDataError → AnyError
  | CodeError : CodeError → AnyError
  | DbusConnectFailedError : DbusConnectFailedError → AnyError

/-- The ambient constants and process state consulted by the renderings:
`DOCUMENTATION_URL`, `APPLICATION_NAME`, `QUALITYLESS_PRODUCT_NAME`,
`CONTROL_PORT` from `crate::constants`, and the process introspection
`std::env::current_exe()`, `std::env::args()`,
`std::env::var("WSL_DISTRO_NAME")`. -/
structure Env where
  documentation_url : Option String
  application_name : String
  qualityless_product_name : String
  control_port : Nat
  current_exe : Option String
  args : List String
  wsl_distro_name : Option String

/-- The `Display` implementation the `makeAnyError!` macro generates for
`AnyError`: `match *self { AnyError::$e(ref e) => e.fmt(f) }` — pure
delegation to the contained leaf's rendering. -/
def AnyError.fmt (env : Env) : AnyError → String
  | .MissingLegalConsent e => e.fmt
  | .MismatchConnectionToken e => e.fmt
  | .DevTunnelError e => e.fmt
  | .StatusError e => e.fmt
  | .WrappedError e => e.fmt
  | .InvalidServerExtensionError e => e.fmt
  | .MissingEntrypointError e => e.fmt
  | .SetupError e => e.fmt env.documentation_url
  | .NoHomeForLauncherError e => e.fmt
  | .TunnelCreationFailed e => e.fmt
  | .TunnelHostFailed e => e.fmt
  | .InvalidTunnelName e => e.fmt
  | .ExtensionInstallFailed e => e.fmt
  | .MismatchedLaunchModeError e => e.fmt
  | .NoAttachedServerError e => e.fmt
  | .RefreshTokenNotAvailableError e => e.fmt
  | .NoInstallInUserProvidedPath e => e.fmt env.qualityless_product_name env.application_name
  | .UserCancelledInstallation e => e.fmt
  | .InvalidRequestedVersion e => e.fmt
  | .CannotForwardControlPort e => e.fmt env.control_port
  | .ServerHasClosed e => e.fmt
  | .ServiceAlreadyRegistered e => e.fmt env.application_name
  | .WindowsNeedsElevation e => e.fmt env.current_exe env.args
  | .UpdatesNotConfigured e => e.fmt
  | .CorruptDownload e => e.fmt env.qualityless_product_name
  | .MissingHomeDirectory e => e.fmt
  | .OAuthError e => e.fmt
  | .InvalidRpcDataError e => e.fmt
  | .CodeError e => e.fmt
  | .DbusConnectFailedError e => e.fmt env.wsl_distro_name

/-- Macro-generated `impl From<MissingLegalConsent> for AnyError`. -/
def from_MissingLegalConsent (e : MissingLegalConsent) : AnyError :=
  AnyError.MissingLegalConsent e

/-- Macro-generated `impl From<MismatchConnectionToken> for AnyError`. -/
def from_MismatchConnectionToken (e : MismatchConnectionToken) : AnyError :=
  AnyError.MismatchConnectionToken e

/-- Macro-generated `impl From<DevTunnelError> for AnyError`. -/
def from_DevTunnelError (e : DevTunnelError) : AnyError :=
  AnyError.DevTunnelError e

/-- Macro-generated `impl From<StatusError> for AnyError`. -/
def from_StatusError (e : StatusError) : AnyError :=
  AnyError.StatusError e

/-- Macro-generated `impl From<WrappedError> for AnyError`. -/
def from_WrappedError (e : WrappedError) : AnyError :=
  AnyError.WrappedError e

/-- Macro-generated `impl From<InvalidServerExtensionError> for AnyError`. -/
def from_InvalidServerExtensionError (e : InvalidServerExtensionError) : AnyError :=
  AnyError.InvalidServerExtensionError e

/-- Macro-generated `impl From<MissingEntrypointError> for AnyError`. -/
def from_MissingEntrypointError (e : MissingEntrypointError) : AnyError :=
  AnyError.MissingEntrypointError e

/-- Macro-generated `impl From<SetupError> for AnyError`. -/
def from_SetupError (e : SetupError) : AnyError :=
  AnyError.SetupError e

/-- Macro-generated `impl From<NoHomeForLauncherError> for AnyError`. -/
def from_NoHomeForLauncherError (e : NoHomeForLauncherError) : AnyError :=
  AnyError.NoHomeForLauncherError e

/-- Macro-generated `impl From<TunnelCreationFailed> for AnyError`. -/
def from_TunnelCreationFailed (e : TunnelCreationFailed) : AnyError :=
  AnyError.TunnelCreationFailed e

/-- Macro-generated `impl From<TunnelHostFailed> for AnyError`. -/
def from_TunnelHostFailed (e : TunnelHostFailed) : AnyError :=
  AnyError.TunnelHostFailed e

/-- Macro-generated `impl From<InvalidTunnelName> for AnyError`. -/
def from_InvalidTunnelName (e : InvalidTunnelName) : AnyError :=
  AnyError.InvalidTunnelName e

/-- Macro-generated `impl From<ExtensionInstallFailed> for AnyError`. -/
def from_ExtensionInstallFailed (e : ExtensionInstallFailed) : AnyError :=
  AnyError.ExtensionInstallFailed e

/-- Macro-generated `impl From<MismatchedLaunchModeError> for AnyError`. -/
def from_MismatchedLaunchModeError (e : MismatchedLaunchModeError) : AnyError :=
  AnyError.MismatchedLaunchModeError e

/-- Macro-generated `impl From<NoAttachedServerError> for AnyError`. -/
def from_NoAttachedServerError (e : NoAttachedServerError) : AnyError :=
  AnyError.NoAttachedServerError e

/-- Macro-generated `impl From<RefreshTokenNotAvailableError> for AnyError`. -/
def from_RefreshTokenNotAvailableError (e : RefreshTokenNotAvailableError) : AnyError :=
  AnyError.RefreshTokenNotAvailableError e

/-- Macro-generated `impl From<NoInstallInUserProvidedPath> for AnyError`. -/
def from_NoInstallInUserProvidedPath (e : NoInstallInUserProvidedPath) : AnyError :=
  AnyError.NoInstallInUserProvidedPath e

/-- Macro-generated `impl From<UserCancelledInstallation> for AnyError`. -/
def from_UserCancelledInstallation (e : UserCancelledInstallation) : AnyError :=
  AnyError.UserCancelledInstallation e

/-- Macro-generated `impl From<InvalidRequestedVersion> for AnyError`. -/
def from_InvalidRequestedVersion (e : InvalidRequestedVersion) : AnyError :=
  AnyError.InvalidRequestedVersion e

/-- Macro-generated `impl From<CannotForwardControlPort> for AnyError`. -/
def from_CannotForwardControlPort (e : CannotForwardControlPort) : AnyError :=
  AnyError.CannotForwardControlPort e

/-- Macro-generated `impl From<ServerHasClosed> for AnyError`. -/
def from_ServerHasClosed (e : ServerHasClosed) : AnyError :=
  AnyError.ServerHasClosed e

/-- Macro-generated `impl From<ServiceAlreadyRegistered> for AnyError`. -/
def from_ServiceAlreadyRegistered (e : ServiceAlreadyRegistered) : AnyError :=
  AnyError.ServiceAlreadyRegistered e

/-- Macro-generated `impl From<WindowsNeedsElevation> for AnyError`. -/
def from_WindowsNeedsElevation (e : WindowsNeedsElevation) : AnyError :=
  AnyError.WindowsNeedsElevation e

/-- Macro-generated `impl From<UpdatesNotConfigured> for AnyError`. -/
def from_UpdatesNotConfigured (e : UpdatesNotConfigured) : AnyError :=
  AnyError.UpdatesNotConfigured e

/-- Macro-generated `impl From<CorruptDownload> for AnyError`. -/
def from_CorruptDownload (e : CorruptDownload) : AnyError :=
  AnyError.CorruptDownload e

/-- Macro-generated `impl From<MissingHomeDirectory> for AnyError`. -/
def from_MissingHomeDirectory (e : MissingHomeDirectory) : AnyError :=
  AnyError.MissingHomeDirectory e

/-- Macro-generated `impl From<OAuthError> for AnyError`. -/
def from_OAuthError (e : OAuthError) : AnyError :=
  AnyError.OAuthError e

/-- Macro-generated `impl From<InvalidRpcDataError> for AnyError`. -/
def from_InvalidRpcDataError (e : InvalidRpcDataError) : AnyError :=
  AnyError.InvalidRpcDataError e

/-- Macro-generated `impl From<CodeError> for AnyError`. -/
def from_CodeError (e : CodeError) : AnyError :=
  AnyError.CodeError e

/-- Macro-generated `impl From<DbusConnectFailedError> for AnyError`. -/
def from_DbusConnectFailedError (e : DbusConnectFailedError) : AnyError :=
  AnyError.DbusConnectFailedError e

/-- Hand-written `impl From<reqwest::Error> for AnyError`: always the
`WrappedError` case, through `WrappedError::from`. -/
def AnyError.from_reqwest (e : ReqwestError) : AnyError :=
  AnyError.WrappedError (WrappedError.from_reqwest e)

/-- `StatusError::from_res`: captures the status code and URL, then drains
the body; a drain failure is mapped through `wrap` (with the captured code
and URL in the message) and lifted to `AnyError` by the `?` operator via
the macro-generated `From<WrappedError>`. -/
def StatusError.from_res (res : Response) : Except AnyError StatusError :=
  let status_code := res.status
  let url := res.url
  match res.text with
  | Except.error e =>
    Except.error (from_WrappedError
      (wrap e ("failed to read response body on " ++ toString status_code ++ " code from " ++ url)))
  | Except.ok body => Except.ok { url := url, status_code := status_code, body := body }

/-- An arbitrary value with a `Display` rendering, standing for any
`T: Display` source passed to `wrap`. -/
structure DisplayString where
  s : String

instance : RustDisplay DisplayString :=
  ⟨DisplayString.s⟩

/-- An arbitrary value with a `Debug` rendering, standing for any
`T: Debug` source passed to `wrapdbg`. -/
structure DebugString where
  s : String

instance : RustDebug DebugString :=
  ⟨DebugString.s⟩

/-- The fixed part of the `WindowsNeedsElevation` rendering that precedes
the branch on `std::env::current_exe()`. -/
def elevationPreamble (m : String) : String :=
  m ++ "\n"
    ++ "\n"
    ++ "You may need to run this command as an administrator:" ++ "\n"
    ++ " 1. Open the start menu and search for Powershell" ++ "\n"
    ++ " 2. Right click and 'Run as administrator'" ++ "\n"

/-- C1: for every leaf type registered in `AnyError`, converting a value
through its macro-generated `From` conversion and rendering the resulting
`AnyError` yields exactly the string obtained by rendering the leaf value
directly (in the same ambient environment). -/
theorem anyError_display_roundtrip :
    ∀ (env : Env),
      (∀ e : MissingLegalConsent,
        AnyError.fmt env (from_MissingLegalConsent e) = MissingLegalConsent.fmt e)
      ∧ (∀ e : MismatchConnectionToken,
        AnyError.fmt env (from_MismatchConnectionToken e) = MismatchConnectionToken.fmt e)
      ∧ (∀ e : DevTunnelError,
        AnyError.fmt env (from_DevTunnelError e) = DevTunnelError.fmt e)
      ∧ (∀ e : StatusError,
        AnyError.fmt env (from_StatusError e) = StatusError.fmt e)
      ∧ (∀ e : WrappedError,
        AnyError.fmt env (from_WrappedError e) = WrappedError.fmt e)
      ∧ (∀ e : InvalidServerExtensionError,
        AnyError.fmt env (from_InvalidServerExtensionError e) = InvalidServerExtensionError.fmt e)
      ∧ (∀ e : MissingEntrypointError,
        AnyError.fmt env (from_MissingEntrypointError e) = MissingEntrypointError.fmt e)
      ∧ (∀ e : SetupError,
        AnyError.fmt env (from_SetupError e) = SetupError.fmt env.documentation_url e)
      ∧ (∀ e : NoHomeForLauncherError,
        AnyError.fmt env (from_NoHomeForLauncherError e) = NoHomeForLauncherError.fmt e)
      ∧ (∀ e : TunnelCreationFailed,
        AnyError.fmt env (from_TunnelCreationFailed e) = TunnelCreationFailed.fmt e)
      ∧ (∀ e : TunnelHostFailed,
        AnyError.fmt env (from_TunnelHostFailed e) = TunnelHostFailed.fmt e)
      ∧ (∀ e : InvalidTunnelName,
        AnyError.fmt env (from_InvalidTunnelName e) = InvalidTunnelName.fmt e)
      ∧ (∀ e : ExtensionInstallFailed,
        AnyError.fmt env (from_ExtensionInstallFailed e) = ExtensionInstallFailed.fmt e)
      ∧ (∀ e : MismatchedLaunchModeError,
        AnyError.fmt env (from_MismatchedLaunchModeError e) = MismatchedLaunchModeError.fmt e)
      ∧ (∀ e : NoAttachedServerError,
        AnyError.fmt env (from_NoAttachedServerError e) = NoAttachedServerError.fmt e)
      ∧ (∀ e : RefreshTokenNotAvailableError,
        AnyError.fmt env (from_RefreshTokenNotAvailableError e) = RefreshTokenNotAvailableError.fmt e)
      ∧ (∀ e : NoInstallInUserProvidedPath,
        AnyError.fmt env (from_NoInstallInUserProvidedPath e)
          = NoInstallInUserProvidedPath.fmt env.qualityless_product_name env.application_name e)
      ∧ (∀ e : UserCancelledInstallation,
        AnyError.fmt env (from_UserCancelledInstallation e) = UserCancelledInstallation.fmt e)
      ∧ (∀ e : InvalidRequestedVersion,
        AnyError.fmt env (from_InvalidRequestedVersion e) = InvalidRequestedVersion.fmt e)
      ∧ (∀ e : CannotForwardControlPort,
        AnyError.fmt env (from_CannotForwardControlPort e)
          = CannotForwardControlPort.fmt env.control_port e)
      ∧ (∀ e : ServerHasClosed,
        AnyError.fmt env (from_ServerHasClosed e) = ServerHasClosed.fmt e)
      ∧ (∀ e : ServiceAlreadyRegistered,
        AnyError.fmt env (from_ServiceAlreadyRegistered e)
          = ServiceAlreadyRegistered.fmt env.application_name e)
      ∧ (∀ e : WindowsNeedsElevation,
        AnyError.fmt env (from_WindowsNeedsElevation e)
          = WindowsNeedsElevation.fmt env.current_exe env.args e)
      ∧ (∀ e : UpdatesNotConfigured,
        AnyError.fmt env (from_UpdatesNotConfigured e) = UpdatesNotConfigured.fmt e)
      ∧ (∀ e : CorruptDownload,
        AnyError.fmt env (from_CorruptDownload e)
          = CorruptDownload.fmt env.qualityless_product_name e)
      ∧ (∀ e : MissingHomeDirectory,
        AnyError.fmt env (from_MissingHomeDirectory e) = MissingHomeDirectory.fmt e)
      ∧ (∀ e : OAuthError,
        AnyError.fmt env (from_OAuthError e) = OAuthError.fmt e)
      ∧ (∀ e : InvalidRpcDataError,
        AnyError.fmt env (from_InvalidRpcDataError e) = InvalidRpcDataError.fmt e)
      ∧ (∀ e : CodeError,
        AnyError.fmt env (from_CodeError e) = CodeError.fmt e)
      ∧ (∀ e : DbusConnectFailedError,
        AnyError.fmt env (from_DbusConnectFailedError e)
          = DbusConnectFailedError.fmt env.wsl_distro_name e) :=
  fun _ =>
    ⟨fun _ => rfl, fun _ => rfl, fun _ => rfl, fun _ => rfl, fun _ => rfl, fun _ => rfl,
      fun _ => rfl, fun _ => rfl, fun _ => rfl, fun _ => rfl, fun _ => rfl, fun _ => rfl,
      fun _ => rfl, fun _ => rfl, fun _ => rfl, fun _ => rfl, fun _ => rfl, fun _ => rfl,
      fun _ => rfl, fun _ => rfl, fun _ => rfl, fun _ => rfl, fun _ => rfl, fun _ => rfl,
      fun _ => rfl, fun _ => rfl, fun _ => rfl, fun _ => rfl, fun _ => rfl, fun _ => rfl⟩

/-- C2: wrapping composes — `wrap(wrap(x, "a"), "b")` renders as
`"b: a: "` followed by the rendering of `x`, and in general a wrapped
failure renders as its message, a colon and space, then the original's
captured rendering. -/
theorem wrappedError_wrap_composes :
    (∀ (α : Type) [RustDisplay α] (x : α),
      WrappedError.fmt (wrap (wrap x "a") "b") = "b: a: " ++ RustDisplay.fmt x)
    ∧ (∀ (α : Type) [RustDisplay α] (x : α) (m : String),
      WrappedError.fmt (wrap x m) = m ++ ": " ++ RustDisplay.fmt x) :=
  ⟨fun _ _ _ => rfl, fun _ _ _ _ => rfl⟩

/-- Witness for C2 at a concrete displayable value. -/
theorem wrappedError_wrap_composes_witness :
    WrappedError.fmt (wrap (wrap (DisplayString.mk "boom") "a") "b")
      = "b: a: " ++ RustDisplay.fmt (DisplayString.mk "boom") :=
  wrappedError_wrap_composes.1 DisplayString (DisplayString.mk "boom")

/-- C3: converting a network-client failure produces the message
`"error requesting {url}"` when a URL is known (exactly
`"error requesting https://example.com"` for that URL) and exactly
`"error requesting <unknown>"` when none is resolvable; the original
field is the failure's own rendering, and the direct conversion into
`AnyError` always lands in the `WrappedError` case. -/
theorem reqwest_error_conversion :
    (∀ (r : String),
      (WrappedError.from_reqwest { url := some "https://example.com", rendering := r }).message
        = "error requesting https://example.com")
    ∧ (∀ (r : String),
      (WrappedError.from_reqwest { url := none, rendering := r }).message
        = "error requesting <unknown>")
    ∧ (∀ (u r : String),
      WrappedError.from_reqwest { url := some u, rendering := r }
        = { message := "error requesting " ++ u, original := r })
    ∧ (∀ (e : ReqwestError),
      (WrappedError.from_reqwest e).original = e.rendering)
    ∧ (∀ (e : ReqwestError),
      AnyError.from_reqwest e = AnyError.WrappedError (WrappedError.from_reqwest e)) :=
  ⟨fun _ => rfl, fun _ => rfl, fun _ _ => rfl, fun _ => rfl, fun _ => rfl⟩

/-- C4: on a response with status 404, any URL `u`, and a body that drains
to `"not found"`, `from_res` returns a `StatusError` rendering exactly
`"error requesting " ++ u ++ ": 404 not found"`; in general a
`StatusError` renders its URL, status code and body in that order. -/
theorem statusError_from_res_success :
    (∀ (u : String),
      StatusError.from_res { status := 404, url := u, text := Except.ok "not found" }
        = Except.ok { url := u, status_code := 404, body := "not found" })
    ∧ (∀ (u : String),
      StatusError.fmt { url := u, status_code := 404, body := "not found" }
        = "error requesting " ++ u ++ ": 404 not found")
    ∧ (∀ (e : StatusError),
      StatusError.fmt e
        = "error requesting " ++ e.url ++ ": " ++ toString e.status_code ++ " " ++ e.body) := by
  refine ⟨fun u => rfl, fun u => ?_, fun e => rfl⟩
  simp only [StatusError.fmt, String.append_assoc]
  rfl

/-- C5: when draining the body fails, `from_res` returns an error (not a
`StatusError`): the `WrappedError` case with message
`"failed to read response body on {code} code from {url}"` built from the
captured status code and URL, and with the draining failure's own
rendering as the original. -/
theorem statusError_from_res_body_drain_failure :
    ∀ (code : Nat) (u : String) (err : ReqwestError),
      StatusError.from_res { status := code, url := u, text := Except.error err }
        = Except.error (AnyError.WrappedError
            { message := "failed to read response body on " ++ toString code ++ " code from " ++ u
              original := err.rendering }) :=
  fun _ _ _ => rfl

/-- C6: an OAuth failure renders its error code, and its description when
present; with no description the trailing field is empty rather than a
placeholder string. -/
theorem oauthError_rendering :
    (∀ (c d : String),
      OAuthError.fmt { error := c, error_description := some d }
        = "Error getting authorization: " ++ c ++ " " ++ d)
    ∧ (∀ (c : String),
      OAuthError.fmt { error := c, error_description := none }
        = "Error getting authorization: " ++ c ++ " ") := by
  refine ⟨fun c d => rfl, fun c => ?_⟩
  have h : OAuthError.fmt { error := c, error_description := none }
      = "Error getting authorization: " ++ c ++ " " ++ "" := rfl
  rw [h, String.append_empty]

/-- C7: when the executable path is determined the elevation rendering is
the fixed preamble followed by a re-invocation line containing the literal
path and the quoted, space-joined arguments after the first; when it is
not determined the rendering is the preamble followed by the fallback
line; the two possible trailing lines are never equal, so no rendering
carries both, and rendering is a total function. -/
theorem windowsNeedsElevation_rendering :
    (∀ (m exe : String) (args : List String),
      WindowsNeedsElevation.fmt (some exe) args { msg := m }
        = elevationPreamble m
            ++ (" 3. Run &'" ++ exe ++ "' '"
                ++ String.intercalate "' '" (args.drop 1) ++ "'" ++ "\n"))
    ∧ (∀ (m : String) (args : List String),
      WindowsNeedsElevation.fmt none args { msg := m }
        = elevationPreamble m ++ (" 3. Run the same command again" ++ "\n"))
    ∧ (∀ (exe : String) (args : List String),
      " 3. Run &'" ++ exe ++ "' '" ++ String.intercalate "' '" (args.drop 1) ++ "'" ++ "\n"
        ≠ " 3. Run the same command again" ++ "\n") := by
  refine ⟨fun m exe args => rfl, fun m args => rfl, fun exe args h => ?_⟩
  have h2 := congrArg (fun s => s.data.take 9) h
  simp only [String.data_append, List.append_assoc, List.take_append_eq_append_take] at h2
  simp at h2

/-- C8: the dbus-connection failure rendered with the WSL environment
variable set differs from the rendering without it only by the inserted
guidance block; the fixed base message and the captured failure text at
the end are identical in both renderings. -/
theorem dbusConnectFailedError_rendering :
    (∀ (w s : String),
      DbusConnectFailedError.fmt (some w) { msg := s }
        = dbusBaseMessage ++ dbusWslGuidance ++ dbusGuidanceTail ++ s ++ "\n")
    ∧ (∀ (s : String),
      DbusConnectFailedError.fmt none { msg := s }
        = dbusBaseMessage ++ dbusGuidanceTail ++ s ++ "\n") :=
  ⟨fun _ _ => rfl, fun _ => rfl⟩

/-- C9: `wrapdbg` is total — for every source value with any structural
rendering (empty and control-character strings included) and every
message, it yields a wrapped failure rendering as the message, a colon
and space, then the source's debug text. -/
theorem wrapdbg_total_rendering :
    ∀ (α : Type) [RustDebug α] (x : α) (m : String),
      WrappedError.fmt (wrapdbg x m) = m ++ ": " ++ RustDebug.fmt x :=
  fun _ _ _ _ => rfl

/-- Witness for C9 at a concrete debug value whose rendering is a control
character. -/
theorem wrapdbg_total_rendering_witness :
    WrappedError.fmt (wrapdbg (DebugString.mk "\x00") "ctx")
      = "ctx" ++ ": " ++ RustDebug.fmt (DebugString.mk "\x00") :=
  wrapdbg_total_rendering DebugString (DebugString.mk "\x00") "ctx"

/-- C10: `SetupError` interpolates the documentation URL (or `"<docs>"`
when it is unconfigured) into the leading position and the carried
message after `"More info at "`, followed by `"/remote/linux"`. -/
theorem setupError_rendering :
    (∀ (u s : String),
      SetupError.fmt (some u) { msg := s }
        = u ++ "\n\nMore info at " ++ s ++ "/remote/linux")
    ∧ (∀ (s : String),
      SetupError.fmt none { msg := s }
        = "<docs>" ++ "\n\nMore info at " ++ s ++ "/remote/linux") :=
  ⟨fun _ _ => rfl, fun _ => rfl⟩

/-- Witness for C7 at a concrete process state with a determined
executable path. -/
theorem windowsNeedsElevation_rendering_witness :
    WindowsNeedsElevation.fmt (some "C:\\code.exe") ["code", "tunnel", "service"] { msg := "denied" }
      = elevationPreamble "denied"
          ++ (" 3. Run &'" ++ "C:\\code.exe" ++ "' '"
              ++ String.intercalate "' '" (["code", "tunnel", "service"].drop 1) ++ "'" ++ "\n") :=
  windowsNeedsElevation_rendering.1 "denied" "C:\\code.exe" ["code", "tunnel", "service"]
